import Mathlib

/-
Verification of the Tailwind-style configuration documents of this repository.

The repository consists of four configuration documents:
  * src/tailwind.config.js, first document (lines 2-9): content globs,
    darkMode "media", empty theme.extend, plugins = [require("daisyui")];
  * src/tailwind.config.js, second document (lines 12-28): content globs and
    a flat colors extension;
  * src/unnamed/part_000: content globs, nested colors palette, fontFamily;
  * src/unnamed/part_001: content globs, colors palette with DEFAULT shade,
    spacing additions, fontFamily.

Each document is a module whose export is a literal object expression, except
for the single call require("daisyui") inside the first document's plugins
array.  We embed the documents as expressions of a small object language,
evaluate them with an explicit process environment (the channel through which
a configuration module could depend on external input), and check the claimed
invariants on the exported values by computation.
-/

/-- A process environment: what an evaluation of a configuration module could
read from the outside world (environment variables and the like). -/
abbrev JsEnv := String → String

/-- Expressions that occur in the configuration modules: string and numeric
literals, array and object literals, plugin references loaded with require,
and reads of external input (the one form of input dependence available to a
configuration module; no document of this repository uses it). -/
inductive JsExpr where
  | str (s : String)
  | num (n : Int)
  | arr (elems : List JsExpr)
  | obj (fields : List (String × JsExpr))
  | require (moduleName : String)
  | getenv (name : String)

/-- Values a configuration expression evaluates to.  A require call on an
installed package name resolves to a reference to that plugin. -/
inductive JsValue where
  | str (s : String)
  | num (n : Int)
  | arr (elems : List JsValue)
  | obj (fields : List (String × JsValue))
  | plugin (moduleName : String)

/-- Fuel-bounded evaluation of a configuration expression under a process
environment.  Returns none only when the nesting depth exceeds the fuel. -/
def evalFuel : Nat → JsExpr → JsEnv → Option JsValue
  | 0, _, _ => none
  | _ + 1, .str s, _ => some (.str s)
  | _ + 1, .num n, _ => some (.num n)
  | fuel + 1, .arr es, env =>
      (es.mapM (fun e => evalFuel fuel e env)).map JsValue.arr
  | fuel + 1, .obj kvs, env =>
      (kvs.mapM (fun kv => (evalFuel fuel kv.2 env).map (fun v => (kv.1, v)))).map JsValue.obj
  | _ + 1, .require m, _ => some (.plugin m)
  | _ + 1, .getenv k, env => some (.str (env k))

/-- The module names passed to require calls inside an expression, in order,
fuel-bounded by nesting depth. -/
def requireCallsF : Nat → JsExpr → Option (List String)
  | 0, _ => none
  | _ + 1, .require m => some [m]
  | fuel + 1, .arr es => (es.mapM (requireCallsF fuel)).map List.flatten
  | fuel + 1, .obj kvs => (kvs.mapM (fun kv => requireCallsF fuel kv.2)).map List.flatten
  | _ + 1, _ => some []

/-- The external-input names read by an expression, fuel-bounded by nesting
depth. -/
def inputReadsF : Nat → JsExpr → Option (List String)
  | 0, _ => none
  | _ + 1, .getenv k => some [k]
  | fuel + 1, .arr es => (es.mapM (inputReadsF fuel)).map List.flatten
  | fuel + 1, .obj kvs => (kvs.mapM (fun kv => inputReadsF fuel kv.2)).map List.flatten
  | _ + 1, _ => some []

/-- The string leaves of a value (the literal configuration strings), in
order, fuel-bounded by nesting depth.  Plugin references and numbers are not
string leaves. -/
def strLeavesF : Nat → JsValue → Option (List String)
  | 0, _ => none
  | _ + 1, .str s => some [s]
  | _ + 1, .num _ => some []
  | _ + 1, .plugin _ => some []
  | fuel + 1, .arr es => (es.mapM (strLeavesF fuel)).map List.flatten
  | fuel + 1, .obj kvs => (kvs.mapM (fun kv => strLeavesF fuel kv.2)).map List.flatten

/-- The configuration object exported by src/tailwind.config.js, first
document (lines 2-9). -/
def tailwindConfigSrc : JsExpr :=
  .obj [
    ("content", .arr [.str "./templates/**/*.html"]),
    ("darkMode", .str "media"),
    ("theme", .obj [("extend", .obj [])]),
    ("plugins", .arr [.require "daisyui"])]

/-- The configuration object exported by the second document inside
src/tailwind.config.js (lines 12-28). -/
def tailwindConfigRelatedSrc : JsExpr :=
  .obj [
    ("content", .arr [
      .str "./templates/**/*.html",
      .str "./apps/**/*.html",
      .str "./apps/**/templates/**/*.html"]),
    ("theme", .obj [("extend", .obj [
      ("colors", .obj [
        ("primary", .str "#2E7D32"),
        ("primary-dark", .str "#1B5E20"),
        ("accent", .str "#4CAF50")])])]),
    ("plugins", .arr [])]

/-- The configuration object exported by src/unnamed/part_000 (lines 2-38). -/
def part000Src : JsExpr :=
  .obj [
    ("content", .arr [
      .str "./templates/**/*.html",
      .str "./apps/**/*.html",
      .str "./apps/**/templates/**/*.html",
      .str "./static/js/**/*.js"]),
    ("theme", .obj [("extend", .obj [
      ("colors", .obj [
        ("primary", .obj [
          ("50", .str "#f0fdf4"),
          ("100", .str "#dcfce7"),
          ("200", .str "#bbf7d0"),
          ("300", .str "#86efac"),
          ("400", .str "#4ade80"),
          ("500", .str "#22c55e"),
          ("600", .str "#16a34a"),
          ("700", .str "#15803d"),
          ("800", .str "#166534"),
          ("900", .str "#14532d")]),
        ("danger", .obj [
          ("600", .str "#dc2626"),
          ("700", .str "#b91c1c")])]),
      ("fontFamily", .obj [
        ("sans", .arr [.str "Inter", .str "system-ui", .str "sans-serif"])])])]),
    ("plugins", .arr [])]

/-- The configuration object exported by src/unnamed/part_001 (lines 2-59). -/
def part001Src : JsExpr :=
  .obj [
    ("content", .arr [
      .str "./templates/**/*.html",
      .str "./apps/**/*.html",
      .str "./static_src/**/*.js",
      .str "./templates/partials/**/*.html"]),
    ("theme", .obj [("extend", .obj [
      ("colors", .obj [
        ("primary", .obj [
          ("DEFAULT", .str "#2E7D32"),
          ("50", .str "#f0fdf4"),
          ("100", .str "#dcfce7"),
          ("200", .str "#bbf7d0"),
          ("300", .str "#86efac"),
          ("400", .str "#4ade80"),
          ("500", .str "#22c55e"),
          ("600", .str "#16a34a"),
          ("700", .str "#15803d"),
          ("800", .str "#166534"),
          ("900", .str "#14532d")]),
        ("secondary", .str "#43A047"),
        ("danger", .str "#D32F2F"),
        ("warning", .str "#F57C00"),
        ("info", .str "#1976D2"),
        ("muted", .str "#6B7280")]),
      ("spacing", .obj [
        ("128", .str "32rem"),
        ("144", .str "36rem")]),
      ("fontFamily", .obj [
        ("sans", .arr [.str "Inter", .str "system-ui", .str "sans-serif"])])])]),
    ("plugins", .arr [])]

/-- All configuration documents of the repository. -/
def repoSrcs : List JsExpr :=
  [tailwindConfigSrc, tailwindConfigRelatedSrc, part000Src, part001Src]

/-- The value a configuration module exports.  The environment argument is
arbitrary; no document reads external input (see the determinism theorem). -/
def exportOf (e : JsExpr) : Option JsValue :=
  evalFuel 8 e (fun _ => "")

/-- Check a boolean property of the value a configuration module exports;
a module whose evaluation does not produce a value fails the check. -/
def checkExport (p : JsValue → Bool) (e : JsExpr) : Bool :=
  match exportOf e with
  | some v => p v
  | none => false

/-- Field lookup in an object value; none on non-objects. -/
def getField : JsValue → String → Option JsValue
  | .obj kvs, k => kvs.lookup k
  | _, _ => none

/-- Field lookup lifted to optional values, for access paths. -/
def getFieldO (ov : Option JsValue) (k : String) : Option JsValue :=
  ov.bind (fun v => getField v k)

/-- The theme.extend object of a configuration value, when present. -/
def themeExtendOf (v : JsValue) : Option JsValue :=
  getFieldO (getField v "theme") "extend"

/-- A key recognized by the external styling tool's configuration contract. -/
def recognizedKey (k : String) : Bool :=
  k == "content" || k == "theme" || k == "darkMode" || k == "plugins"

/-- Whether a value is a string literal. -/
def isStrVal : JsValue → Bool
  | .str _ => true
  | _ => false

/-- Whether a value is a numeric literal. -/
def isNumVal : JsValue → Bool
  | .num _ => true
  | _ => false

/-- Syntactic validity for the external tool's contract: an object whose keys
come only from the recognized set, whose content is a sequence of strings,
whose theme.extend is a nested mapping, and whose plugins is a sequence. -/
def shapeOk : JsValue → Bool
  | .obj kvs =>
      kvs.all (fun kv => recognizedKey kv.1) &&
      (match kvs.lookup "content" with
        | some (.arr es) => es.all isStrVal
        | _ => false) &&
      (match kvs.lookup "theme" with
        | some t => match getField t "extend" with
            | some (.obj _) => true
            | _ => false
        | _ => false) &&
      (match kvs.lookup "plugins" with
        | some (.arr _) => true
        | _ => false)
  | _ => false

/-- Whether a character is a hexadecimal digit. -/
def isHexDigitChar (c : Char) : Bool :=
  c.isDigit || ('a' ≤ c && c ≤ 'f') || ('A' ≤ c && c ≤ 'F')

/-- A hex-color string: a hash sign followed by exactly six hex digits. -/
def isHexColor (s : String) : Bool :=
  match s.data with
  | '#' :: ds => ds.length == 6 && ds.all isHexDigitChar
  | _ => false

/-- A content glob as the spec describes it: begins with "./" and ends with
the extension pattern "*.html" or "*.js". -/
def isContentGlob (s : String) : Bool :=
  ['.', '/'].isPrefixOf s.data &&
  ("*.html".data.isSuffixOf s.data || "*.js".data.isSuffixOf s.data)

/-- A spacing override string: one or more decimal digits followed by the
unit "rem". -/
def isRemStr (s : String) : Bool :=
  match s.data.reverse with
  | 'm' :: 'e' :: 'r' :: ds => !ds.isEmpty && ds.all Char.isDigit
  | _ => false

/-- A font-name string: nonempty, made of letters and hyphens. -/
def isFontNameStr (s : String) : Bool :=
  !s.data.isEmpty && s.data.all (fun c => c.isAlpha || c == '-')

/-- The entries of the content sequence, when content is a sequence of
strings. -/
def contentStrs (v : JsValue) : Option (List String) :=
  match getField v "content" with
  | some (.arr es) =>
      es.mapM (fun e => match e with | .str s => some s | _ => none)
  | _ => none

/-- Whether the darkMode key, when specified, holds the strategy selector
"media". -/
def darkModeOk (v : JsValue) : Bool :=
  match getField v "darkMode" with
  | none => true
  | some (.str s) => s == "media"
  | some _ => false

/-- Whether every entry of the content sequence is a content glob. -/
def contentGlobsOk (v : JsValue) : Bool :=
  match contentStrs v with
  | some ss => ss.all isContentGlob
  | none => false

/-- Whether the theme object exists, carries exactly the key "extend", and
extend is a mapping — so every design-token customization sits under
theme.extend and none directly under theme. -/
def themeOnlyExtendOk (v : JsValue) : Bool :=
  match getField v "theme" with
  | some (.obj kvs) =>
      kvs.map Prod.fst == ["extend"] &&
      (match kvs.lookup "extend" with
        | some (.obj _) => true
        | _ => false)
  | _ => false

/-- A design-token category the spec enumerates for theme extensions. -/
def tokenCategory (k : String) : Bool :=
  k == "colors" || k == "fontFamily" || k == "spacing"

/-- Whether the keys of theme.extend come only from the enumerated
design-token categories. -/
def extendKeysOk (v : JsValue) : Bool :=
  match themeExtendOf v with
  | some (.obj kvs) => kvs.all (fun kv => tokenCategory kv.1)
  | _ => false

/-- A flat color leaf: a hex-color string. -/
def colorLeafOk : JsValue → Bool
  | .str s => isHexColor s
  | _ => false

/-- A color entry: a hex-color string, or a shade mapping whose values are
all hex-color strings. -/
def colorEntryOk : JsValue → Bool
  | .str s => isHexColor s
  | .obj kvs => kvs.all (fun kv => colorLeafOk kv.2)
  | _ => false

/-- Whether every leaf under theme.extend.colors is a hex-color string
(vacuously true when no colors extension is present). -/
def colorsOk (v : JsValue) : Bool :=
  match getFieldO (themeExtendOf v) "colors" with
  | none => true
  | some (.obj kvs) => kvs.all (fun kv => colorEntryOk kv.2)
  | some _ => false

/-- The entries of the theme.extend.spacing mapping ([] when absent). -/
def spacingEntries (v : JsValue) : List (String × JsValue) :=
  match getFieldO (themeExtendOf v) "spacing" with
  | some (.obj kvs) => kvs
  | _ => []

/-- Whether every value added to the spacing scale is a rem-dimension
string. -/
def spacingRemOk (v : JsValue) : Bool :=
  (spacingEntries v).all (fun kv => match kv.2 with
    | .str s => isRemStr s
    | _ => false)

/-- The classification of literal configuration strings appearing in the
documents: a content glob, a hex color, a font name, a rem-dimension spacing
override, or the darkMode selector "media". -/
def leafStrClassOk (s : String) : Bool :=
  isContentGlob s || isHexColor s || isFontNameStr s || isRemStr s || s == "media"

/-- Whether every literal string leaf of a configuration value falls in the
classification above. -/
def leavesClassified (v : JsValue) : Bool :=
  match strLeavesF 8 v with
  | some ss => ss.all leafStrClassOk
  | none => false

/-- Pairwise distinctness of a list of strings. -/
def nodupStr : List String → Bool
  | [] => true
  | x :: xs => !xs.contains x && nodupStr xs

/-- The content invariant: the sequence is non-empty, pairwise distinct, and
starts with the templates glob. -/
def contentHeadNodupOk (v : JsValue) : Bool :=
  match contentStrs v with
  | some (s :: rest) => s == "./templates/**/*.html" && nodupStr (s :: rest)
  | _ => false

/-- A document is a pure value literal: no require calls and no external-input
reads anywhere in it. -/
def isLiteralDoc (e : JsExpr) : Bool :=
  requireCallsF 8 e == some [] && inputReadsF 8 e == some []

/-- Claim C1: every configuration object exported by the repository is
syntactically valid for the external styling tool's contract — an object
whose keys come only from the recognized set content, theme, darkMode,
plugins, with content a sequence of strings, theme.extend a nested mapping,
and plugins a sequence. -/
theorem repo_configs_shape_valid :
    repoSrcs.all (checkExport shapeOk) = true := by decide

/-- Claim C2, counterexample: the first document of src/tailwind.config.js is
not all value literals — its plugins sequence contains the function call
require("daisyui"). -/
theorem plugins_contain_require_call :
    isLiteralDoc tailwindConfigSrc = false ∧
    requireCallsF 8 tailwindConfigSrc = some ["daisyui"] := by decide

/-- Claim C2, amended: every configuration document is a value literal with
no external-input dependence, except for the single plugin-loading call
require("daisyui") inside the plugins sequence of src/tailwind.config.js;
the other three documents contain no calls at all, and no document reads
external input. -/
theorem literal_except_daisyui_require :
    requireCallsF 8 tailwindConfigSrc = some ["daisyui"] ∧
    isLiteralDoc tailwindConfigRelatedSrc = true ∧
    isLiteralDoc part000Src = true ∧
    isLiteralDoc part001Src = true ∧
    repoSrcs.all (fun e => inputReadsF 8 e == some []) = true := by decide

/-- Claim C3, counterexample: the spacing scale of src/unnamed/part_001 maps
the key "128" to the string literal "32rem", which is not a numeric value. -/
theorem spacing_value_not_numeric :
    (exportOf part001Src).map spacingEntries =
      some [("128", JsValue.str "32rem"), ("144", JsValue.str "36rem")] ∧
    isNumVal (JsValue.str "32rem") = false := ⟨rfl, rfl⟩

/-- Claim C3, amended: every literal configuration string is a glob-pattern
string, a hex-color string, a font-name string, a rem-dimension spacing
string, or the darkMode selector "media"; in particular, every value added
to the spacing scale is a string of decimal digits followed by "rem", not a
number. -/
theorem spacing_values_rem_strings :
    repoSrcs.all (checkExport spacingRemOk) = true ∧
    repoSrcs.all (checkExport leavesClassified) = true := by decide

/-- Claim C4: in every configuration document that specifies the darkMode
key, its value is the strategy selector "media"; the first document of
src/tailwind.config.js does specify it. -/
theorem darkmode_is_media :
    repoSrcs.all (checkExport darkModeOk) = true ∧
    (exportOf tailwindConfigSrc).bind (fun v => getField v "darkMode") =
      some (JsValue.str "media") := ⟨by decide, rfl⟩

/-- Claim C5: in every configuration document, every entry of the content
sequence is a glob string that begins with "./" and ends with the extension
pattern "*.html" or "*.js". -/
theorem content_entries_are_globs :
    repoSrcs.all (checkExport contentGlobsOk) = true := by decide

/-- Claim C6: in every configuration document the theme object carries
exactly the key "extend", whose value is a mapping — so all design-token
customizations sit under theme.extend and never directly under theme, and
the external tool merges them into its defaults per token. -/
theorem tokens_only_under_theme_extend :
    repoSrcs.all (checkExport themeOnlyExtendOk) = true := by decide

/-- Claim C7: in every configuration document the keys of theme.extend are
drawn only from the enumerated design-token categories colors, fontFamily
and spacing. -/
theorem extend_keys_recognized :
    repoSrcs.all (checkExport extendKeysOk) = true := by decide

/-- Claim C8: evaluating any configuration document is deterministic and
independent of the process environment — any two evaluations of the same
document yield the identical exported value. -/
theorem config_evaluation_deterministic (env₁ env₂ : JsEnv) :
    evalFuel 8 tailwindConfigSrc env₁ = evalFuel 8 tailwindConfigSrc env₂ ∧
    evalFuel 8 tailwindConfigRelatedSrc env₁ = evalFuel 8 tailwindConfigRelatedSrc env₂ ∧
    evalFuel 8 part000Src env₁ = evalFuel 8 part000Src env₂ ∧
    evalFuel 8 part001Src env₁ = evalFuel 8 part001Src env₂ :=
  ⟨rfl, rfl, rfl, rfl⟩

/-- Claim C9: in every configuration document, every leaf under
theme.extend.colors — whether a flat color string or a shade inside a nested
mapping — is a hash sign followed by exactly six hexadecimal digits. -/
theorem color_leaves_hex :
    repoSrcs.all (checkExport colorsOk) = true := by decide

/-- Claim C10: in every configuration document the content sequence is
non-empty, its entries are pairwise distinct, and its first entry is the
glob "./templates/**/*.html". -/
theorem content_nonempty_nodup_head :
    repoSrcs.all (checkExport contentHeadNodupOk) = true := by decide
